import Mathlib

/-!
Shallow embedding of the contacts-service core
(src/src/handler.py, src/src/router.py, src/src/database/models.py,
src/src/schemas.py) and proofs of the specification's claims about it.

Conventions of the embedding:
* the SQLAlchemy session/database is a list of rows; a query with
  `.first()` is `List.find?`, a filtered query is `List.filter`;
* calendar dates (the `Date` column type) are explicit
  year/month/day triples with lexicographic order;
* instants (`datetime.utcnow()`) are integers counting seconds, and
  `timedelta` values are integer second counts;
* a signed JWT is represented by its claim set plus the key it was
  signed with: decoding with a key succeeds exactly when the keys
  match, which models signature verification;
* raising `HTTPException` is returning an error value.
-/

/-- A calendar date (year, month, day), the model of a SQL `Date` value. -/
structure PDate where
  year : Nat
  month : Nat
  day : Nat
deriving DecidableEq, Repr

/-- Lexicographic order on dates, the model of SQL date comparison. -/
def dateLe (a b : PDate) : Bool :=
  a.year < b.year ||
    (a.year == b.year &&
      (a.month < b.month || (a.month == b.month && a.day ≤ b.day)))

/-- Gregorian leap-year test. -/
def isLeap (y : Nat) : Bool :=
  y % 4 == 0 && (y % 100 != 0 || y % 400 == 0)

/-- Number of days in a Gregorian month. -/
def daysInMonth (y m : Nat) : Nat :=
  if m == 2 then (if isLeap y then 29 else 28)
  else if m == 4 || m == 6 || m == 9 || m == 11 then 30
  else 31

/-- The day after a date. -/
def nextDay (d : PDate) : PDate :=
  if d.day < daysInMonth d.year d.month then ⟨d.year, d.month, d.day + 1⟩
  else if d.month < 12 then ⟨d.year, d.month + 1, 1⟩
  else ⟨d.year + 1, 1, 1⟩

/-- Date plus a number of days, the model of `today + timedelta(days=n)`. -/
def addDays (d : PDate) : Nat → PDate
  | 0 => d
  | n + 1 => nextDay (addDays d n)

/-- A row of the `contacts` table (src/src/database/models.py, class Contact). -/
structure Contact where
  id : Nat
  first_name : String
  last_name : String
  email : String
  phone_number : String
  birthday : PDate
  additional_info : Option String
deriving DecidableEq, Repr

/-- A partial-update request (src/src/schemas.py, ContactUpdate) as it
reaches the handler: for each field, `some v` when the field was set on
the request and `none` when it was left unset, matching what
`model_dump(exclude_unset=True)` reports. -/
structure ContactUpdate where
  first_name : Option String
  last_name : Option String
  email : Option String
  phone_number : Option String
  birthday : Option PDate
  additional_info : Option (Option String)
deriving DecidableEq, Repr

/-- src/src/handler.py, get_contact: first row whose id matches. -/
def get_contact (db : List Contact) (contact_id : Nat) : Option Contact :=
  db.find? (fun c => c.id == contact_id)

/-- The effect of `setattr` for each key of
`contact.model_dump(exclude_unset=True)`: fields set on the request
overwrite, unset fields keep the row's value. -/
def applyUpdate (c : Contact) (u : ContactUpdate) : Contact :=
  { id := c.id
    first_name := u.first_name.getD c.first_name
    last_name := u.last_name.getD c.last_name
    email := u.email.getD c.email
    phone_number := u.phone_number.getD c.phone_number
    birthday := u.birthday.getD c.birthday
    additional_info := u.additional_info.getD c.additional_info }

/-- Replace the first row with the given id; models the mutation of the
instance returned by `get_contact` followed by `db.commit()` (id is the
primary key, so at most one row matches). -/
def replaceFirstById (db : List Contact) (contact_id : Nat) (c' : Contact) : List Contact :=
  match db with
  | [] => []
  | c :: rest =>
    if c.id == contact_id then c' :: rest
    else c :: replaceFirstById rest contact_id c'

/-- src/src/handler.py, update_contact: fetch by id; if found, setattr
each set field and commit; return the (possibly updated) row, `none`
when the id is absent.  The second component is the stored table after
the call. -/
def update_contact (db : List Contact) (contact_id : Nat) (u : ContactUpdate) :
    Option Contact × List Contact :=
  match get_contact db contact_id with
  | none => (none, db)
  | some c =>
    let c' := applyUpdate c u
    (some c', replaceFirstById db contact_id c')

/-- Lower-case a string character by character, the case folding used by
`ilike`. -/
def lowerChars (s : String) : List Char := s.data.map Char.toLower

/-- Does the second list start with the first? -/
def leadsWith : List Char → List Char → Bool
  | [], _ => true
  | _ :: _, [] => false
  | p :: ps, c :: cs => p == c && leadsWith ps cs

/-- Does the pattern occur contiguously and literally somewhere in the
list?  This is the plain substring test the spec's search sentence
describes. -/
def occursIn (pat : List Char) : List Char → Bool
  | [] => leadsWith pat []
  | c :: cs => leadsWith pat (c :: cs) || occursIn pat cs

/-- SQL LIKE matching of a pattern against a text, both already case
folded: a percent matches any run of characters (possibly none), an
underscore matches exactly one character, every other pattern character
matches itself.  The queries attach no ESCAPE clause, so the
metacharacters keep their wildcard meaning inside an interpolated
value. -/
def likeMatch : List Char → List Char → Bool
  | [], t => t.isEmpty
  | '%' :: ps, t => t.tails.any (fun s => likeMatch ps s)
  | '_' :: ps, t =>
    match t with
    | [] => false
    | _ :: ts => likeMatch ps ts
  | p :: ps, t =>
    match t with
    | [] => false
    | c :: cs => p == c && likeMatch ps cs

/-- `column.ilike(f"%{v}%")`: case-insensitive SQL LIKE containment of
the filter value in the field.  The value is interpolated into the
pattern unescaped, so a percent or underscore inside it acts as a
wildcard rather than matching itself. -/
def ilike (field v : String) : Bool :=
  likeMatch (lowerChars ("%" ++ v ++ "%")) (lowerChars field)

/-- Python truthiness of an optional string argument defaulting to
`None`: `None` and the empty string are falsy. -/
def truthy : Option String → Bool
  | none => false
  | some v => !(v == "")

/-- src/src/handler.py, search_contacts: start from the whole table and
narrow it once per truthy filter argument. -/
def search_contacts (db : List Contact) (name surname email : Option String) :
    List Contact :=
  let q := db
  let q := if truthy name then q.filter (fun c => ilike c.first_name (name.getD "")) else q
  let q := if truthy surname then q.filter (fun c => ilike c.last_name (surname.getD "")) else q
  let q := if truthy email then q.filter (fun c => ilike c.email (email.getD "")) else q
  q

/-- The spec's literal reading of one search filter: an omitted filter
always matches, a supplied filter matches when its value is a plain
case-insensitive substring of the field.  Stated from the spec's words,
for comparison with the query's LIKE semantics. -/
def optSubstrMatch : Option String → String → Bool
  | none, _ => true
  | some v, field => occursIn (lowerChars v) (lowerChars field)

/-- One search filter as the query evaluates it: an omitted filter
always matches, a supplied filter matches under case-insensitive LIKE
containment of its value. -/
def optLikeMatch : Option String → String → Bool
  | none, _ => true
  | some v, field => ilike field v

/-- src/src/handler.py, get_upcoming_birthdays: keep rows whose stored
birthday, compared as a full date (`date_trunc('day', ...)` on a Date
column is the date itself, year included), lies between `today` and
`today + timedelta(days=7)`.  `today` is the injected clock value. -/
def get_upcoming_birthdays (db : List Contact) (today : PDate) : List Contact :=
  let next_week := addDays today 7
  db.filter (fun c => dateLe today c.birthday && dateLe c.birthday next_week)

/-- The spec's birthday window: the birthday's month and day, with the
year ignored, fall on one of the eight dates `today .. today + 7`. -/
def birthdayInWindow (today bday : PDate) : Bool :=
  (List.range 8).any (fun k =>
    (addDays today k).month == bday.month && (addDays today k).day == bday.day)

/-- The birthday query as the spec states it: annually recurring
month-and-day membership in the inclusive 7-day window. -/
def upcomingBirthdaysSpec (db : List Contact) (today : PDate) : List Contact :=
  db.filter (fun c => birthdayInWindow today c.birthday)

/-- Modelled from the spec: the bcrypt hash string produced by the
external passlib library (`pwd_context.hash`).  The spec describes it as
a deterministic-salted adaptive hash; the model keeps the two pieces the
verifier extracts from the real hash string, the salt and the digest of
the password under that salt.  One-wayness is not modelled; the digest
function is a parameter of the operations below. -/
structure BcryptHash where
  salt : String
  dig : String
deriving DecidableEq, Repr

/-- Modelled from the spec: src/src/database/models.py,
get_password_hash delegates to `pwd_context.hash`, which draws a fresh
salt and stores it inside the returned hash.  The salt is made an
explicit argument; `digest` stands for the scheme's keyed digest. -/
def get_password_hash (digest : String → String → String) (password salt : String) :
    BcryptHash :=
  { salt := salt, dig := digest salt password }

/-- Modelled from the spec: src/src/database/models.py, verify_password
delegates to `pwd_context.verify`, which re-derives the digest of the
candidate password under the salt stored in the hash and compares. -/
def verify_password (digest : String → String → String) (plain_password : String)
    (hashed_password : BcryptHash) : Bool :=
  digest hashed_password.salt plain_password == hashed_password.dig

/-- A row of the `users` table (src/src/database/models.py, class User).
Note the source model has only these three columns; in particular there
is no verification-flag column. -/
structure User where
  id : Nat
  email : String
  hashed_password : BcryptHash
deriving DecidableEq, Repr

/-- src/src/handler.py, get_user_by_email: first row whose email
matches. -/
def get_user_by_email (db : List User) (email : String) : Option User :=
  db.find? (fun u => u.email == email)

/-- src/src/database/models.py, authenticate_user: look the user up by
email; `none` when absent; `none` again when the password does not
verify; otherwise the user.  `none` is the single InvalidCredentials
outcome (the router maps it to one 401 response). -/
def authenticate_user (digest : String → String → String) (db : List User)
    (email password : String) : Option User :=
  match db.find? (fun u => u.email == email) with
  | none => none
  | some user =>
    if verify_password digest password user.hashed_password then some user
    else none

/-- A registration request (src/src/schemas.py, UserCreate). -/
structure UserCreate where
  email : String
  password : String
deriving DecidableEq, Repr

/-- The failure kinds raised as HTTPException by the handlers. -/
inductive ApiError
  | conflict
  | credentialsException
  | badRequest
deriving DecidableEq, Repr

/-- src/src/handler.py, create_user: reject with 409 Conflict when a
user with the email already exists, otherwise hash the password, insert
the new row and return it.  The id models the storage-assigned
autoincrement key; the second component is the stored table after the
call. -/
def create_user (digest : String → String → String) (db : List User)
    (user : UserCreate) (salt : String) : Except ApiError User × List User :=
  match db.find? (fun u => u.email == user.email) with
  | some _ => (Except.error ApiError.conflict, db)
  | none =>
    let db_user : User :=
      { id := db.length + 1
        email := user.email
        hashed_password := get_password_hash digest user.password salt }
    (Except.ok db_user, db ++ [db_user])

/-- The process-wide signing secret.  src/src/handler.py assigns
SECRET_KEY twice at module level (line 138 a literal, line 227 the
environment value); every encode and decode reads the same final
module-level value, which this constant stands for. -/
def SECRET_KEY : String := "process-secret"

/-- src/src/handler.py, ACCESS_TOKEN_EXPIRE_MINUTES. -/
def ACCESS_TOKEN_EXPIRE_MINUTES : Int := 15

/-- A signed JWT, represented by its claim set (`sub`, optional `exp`,
in seconds) plus the key it was signed with; carrying the key models the
signature. -/
structure Token where
  sub : Option String
  exp : Option Int
  key : String
deriving DecidableEq, Repr

/-- The failure kinds of JWT decoding. -/
inductive JWTDecodeError
  | invalidSignature
  | expired
deriving DecidableEq, Repr

/-- `jwt.decode(token, key, algorithms=[ALGORITHM])` at instant `now`:
signature check first (fails unless the token was signed with the same
key), then the registered `exp` claim, when present, is rejected once
the instant is strictly past it. -/
def jwt_decode (tok : Token) (key : String) (now : Int) :
    Except JWTDecodeError Token :=
  if tok.key == key then
    match tok.exp with
    | some e => if e < now then Except.error JWTDecodeError.expired else Except.ok tok
    | none => Except.ok tok
  else Except.error JWTDecodeError.invalidSignature

/-- Python truthiness of the optional `expires_delta` timedelta argument
defaulting to `None`: `None` and the zero timedelta are falsy. -/
def tdTruthy : Option Int → Bool
  | none => false
  | some d => !(d == 0)

/-- src/src/handler.py, create_access_token: copy the claims, set
`exp = now + expires_delta` when the delta is truthy and
`exp = now + 15 minutes` otherwise, and sign with SECRET_KEY.  `now` is
the injected clock value for `datetime.utcnow()`. -/
def create_access_token (data_sub : Option String) (expires_delta : Option Int)
    (now : Int) : Token :=
  let expire :=
    if tdTruthy expires_delta then now + expires_delta.getD 0
    else now + 60 * ACCESS_TOKEN_EXPIRE_MINUTES
  { sub := data_sub, exp := some expire, key := SECRET_KEY }

/-- src/src/handler.py, get_current_user: decode the token; any decode
failure, a missing `sub` claim, and an unknown subject all raise the one
credentials exception (401); otherwise return the stored user. -/
def get_current_user (db : List User) (token : Token) (now : Int) :
    Except ApiError User :=
  match jwt_decode token SECRET_KEY now with
  | Except.error _ => Except.error ApiError.credentialsException
  | Except.ok payload =>
    match payload.sub with
    | none => Except.error ApiError.credentialsException
    | some email =>
      match db.find? (fun u => u.email == email) with
      | none => Except.error ApiError.credentialsException
      | some user => Except.ok user

/-- The three observable outcomes of the /verify route. -/
inductive VerifyOutcome
  | verified
  | emptyResponse
  | badRequest
deriving DecidableEq, Repr

/-- src/src/router.py, verify_email: decode the token (a decode failure
is a 400); look the subject up; when a user is found the route sets
`user.is_verified = True` and commits — but class User in
src/src/database/models.py declares no is_verified column, so the commit
writes nothing and the stored rows are returned unchanged — and answers
with a message; when no user is found (or `sub` is absent, in which case
the email lookup finds nothing) the function falls through and returns
None, an empty 200 response.  The second component is the stored table
after the call. -/
def verify_email (tok : Token) (db : List User) (now : Int) :
    VerifyOutcome × List User :=
  match jwt_decode tok SECRET_KEY now with
  | Except.error _ => (VerifyOutcome.badRequest, db)
  | Except.ok payload =>
    match payload.sub with
    | none => (VerifyOutcome.emptyResponse, db)
    | some email =>
      match get_user_by_email db email with
      | some _ => (VerifyOutcome.verified, db)
      | none => (VerifyOutcome.emptyResponse, db)

/-! Concrete fixtures used to instantiate the theorems below. -/

/-- A concrete digest function: the identity in the password. -/
def wDigest : String → String → String := fun _ p => p

/-- A stored user whose password hash was produced with wDigest. -/
def wUser : User :=
  { id := 1, email := "jane@x.com", hashed_password := { salt := "s1", dig := "pw1" } }

/-- A stored contact, mirroring the fixture of src/tests/test_handlers.py. -/
def wContact : Contact :=
  { id := 1, first_name := "John", last_name := "Doe", email := "johndoe@example.com"
    phone_number := "1234567890", birthday := ⟨1990, 1, 1⟩, additional_info := none }

/-- A partial update setting only the first name. -/
def wUpdate : ContactUpdate :=
  { first_name := some "Johnny", last_name := none, email := none
    phone_number := none, birthday := none, additional_info := none }

/-- A contact born 1990-01-05, used against a 2024-01-01 clock. -/
def bdayContact : Contact :=
  { id := 2, first_name := "Jane", last_name := "Doe", email := "jane@x.com"
    phone_number := "555-0100", birthday := ⟨1990, 1, 5⟩, additional_info := none }

/-- A contact whose first name a wildcard-bearing filter value selects. -/
def wildcardContact : Contact :=
  { id := 3, first_name := "abc", last_name := "Doe", email := "abc@x.com"
    phone_number := "555-0101", birthday := ⟨1992, 3, 4⟩, additional_info := none }

/-- A well-signed verification token for an email no stored user has. -/
def ghostToken : Token :=
  { sub := some "ghost@x.com", exp := none, key := SECRET_KEY }

/-- A well-signed token whose exp claim is the instant 0. -/
def expiredToken : Token :=
  { sub := some "jane@x.com", exp := some 0, key := SECRET_KEY }

/-! Helper lemmas. -/

theorem tails_any_empty (t : List Char) : t.tails.any (fun s => s.isEmpty) = true := by
  induction t with
  | nil => rfl
  | cons c cs ih =>
    simp only [List.tails_cons, List.any_cons]
    rw [ih]
    simp

theorem likeMatch_pct_pct (t : List Char) : likeMatch ['%', '%'] t = true := by
  cases t with
  | nil => rfl
  | cons c cs =>
    simp only [likeMatch, List.tails_cons, List.any_cons]
    rw [tails_any_empty cs]
    simp

theorem ilike_empty_pat (f : String) : ilike f "" = true := by
  have h : lowerChars ("%" ++ "" ++ "%") = ['%', '%'] := rfl
  rw [ilike, h]
  exact likeMatch_pct_pct _

theorem replaceFirstById_self (db : List Contact) (i : Nat) (c : Contact)
    (h : get_contact db i = some c) : replaceFirstById db i c = db := by
  induction db with
  | nil => simp [get_contact] at h
  | cons x rest ih =>
    rw [get_contact] at h
    by_cases hx : (x.id == i) = true
    · rw [@List.find?_cons_of_pos Contact (fun c => c.id == i) x rest hx] at h
      injection h with hxc
      subst hxc
      unfold replaceFirstById
      rw [if_pos hx]
    · rw [@List.find?_cons_of_neg Contact (fun c => c.id == i) x rest hx] at h
      unfold replaceFirstById
      rw [if_neg hx, ih h]

/-! Claim theorems. -/

/-- C1: for every user email e present in the store, resolving the
current user from an access token freshly issued for e returns the User
record for e, provided the clock has not advanced past the 15-minute
expiry. -/
theorem access_token_roundtrip (db : List User) (e : String) (u : User)
    (tIssue now : Int)
    (hu : db.find? (fun x => x.email == e) = some u)
    (hclock : now ≤ tIssue + 900) :
    get_current_user db (create_access_token (some e) none tIssue) now =
      Except.ok u ∧ u.email = e := by
  have hexp : ¬ (tIssue + 60 * ACCESS_TOKEN_EXPIRE_MINUTES < now) := by
    unfold ACCESS_TOKEN_EXPIRE_MINUTES
    omega
  constructor
  · simp [get_current_user, create_access_token, jwt_decode, tdTruthy, hexp, hu]
  · have h := List.find?_some hu
    simpa using h

theorem access_token_roundtrip_witness :
    get_current_user [wUser] (create_access_token (some "jane@x.com") none 0) 100 =
      Except.ok wUser ∧ wUser.email = "jane@x.com" :=
  access_token_roundtrip [wUser] "jane@x.com" wUser 0 100 rfl (by decide)

/-- C2: the code compares the stored birthday as a full date, year
included, against the window starting at today, so a contact born
1990-01-05 is not returned for today = 2024-01-01 even though the
month-and-day reading of the claim puts that birthday inside the
window. -/
theorem upcoming_birthdays_miss_prior_years :
    get_upcoming_birthdays [bdayContact] ⟨2024, 1, 1⟩ = [] ∧
    upcomingBirthdaysSpec [bdayContact] ⟨2024, 1, 1⟩ = [bdayContact] := by
  constructor
  · rfl
  · rfl

/-- C3: for an existing id, update overwrites exactly the fields set on
the request and keeps every unset field at its prior value; the empty
partial update returns the contact (and the stored table) unchanged; for
an absent id, update returns the NotFound value (none) and leaves the
table unchanged, rather than failing. -/
theorem update_contact_frame (db : List Contact) (contact_id : Nat)
    (u : ContactUpdate) :
    (get_contact db contact_id = none →
      update_contact db contact_id u = (none, db)) ∧
    (∀ c, get_contact db contact_id = some c →
      (update_contact db contact_id u).1 = some
        { id := c.id
          first_name := u.first_name.getD c.first_name
          last_name := u.last_name.getD c.last_name
          email := u.email.getD c.email
          phone_number := u.phone_number.getD c.phone_number
          birthday := u.birthday.getD c.birthday
          additional_info := u.additional_info.getD c.additional_info }) ∧
    (∀ c, get_contact db contact_id = some c →
      u = ⟨none, none, none, none, none, none⟩ →
      update_contact db contact_id u = (some c, db)) := by
  refine ⟨?_, ?_, ?_⟩
  · intro h
    simp [update_contact, h]
  · intro c h
    simp [update_contact, h, applyUpdate]
  · intro c h hu
    subst hu
    have hap : applyUpdate c ⟨none, none, none, none, none, none⟩ = c := rfl
    simp [update_contact, h, hap, replaceFirstById_self db contact_id c h]

theorem update_contact_frame_witness :
    (update_contact [wContact] 1 wUpdate).1 = some
      { id := wContact.id
        first_name := wUpdate.first_name.getD wContact.first_name
        last_name := wUpdate.last_name.getD wContact.last_name
        email := wUpdate.email.getD wContact.email
        phone_number := wUpdate.phone_number.getD wContact.phone_number
        birthday := wUpdate.birthday.getD wContact.birthday
        additional_info := wUpdate.additional_info.getD wContact.additional_info } ∧
    update_contact [wContact] 1 ⟨none, none, none, none, none, none⟩ =
      (some wContact, [wContact]) ∧
    update_contact [wContact] 7 wUpdate = (none, [wContact]) :=
  ⟨(update_contact_frame [wContact] 1 wUpdate).2.1 wContact rfl,
   (update_contact_frame [wContact] 1 ⟨none, none, none, none, none, none⟩).2.2
     wContact rfl rfl,
   (update_contact_frame [wContact] 7 wUpdate).1 rfl⟩

/-- C4: authenticate yields the same failure value (none, the single
InvalidCredentials outcome) whether no user with the email exists or the
stored hash does not verify the password, and yields the stored user
when the password verifies. -/
theorem authenticate_uniform_failure (digest : String → String → String)
    (db : List User) (email password : String) :
    (db.find? (fun x => x.email == email) = none →
      authenticate_user digest db email password = none) ∧
    (∀ u, db.find? (fun x => x.email == email) = some u →
      verify_password digest password u.hashed_password = false →
      authenticate_user digest db email password = none) ∧
    (∀ u, db.find? (fun x => x.email == email) = some u →
      verify_password digest password u.hashed_password = true →
      authenticate_user digest db email password = some u) := by
  refine ⟨?_, ?_, ?_⟩
  · intro h
    simp [authenticate_user, h]
  · intro u h hv
    simp [authenticate_user, h, hv]
  · intro u h hv
    simp [authenticate_user, h, hv]

theorem authenticate_uniform_failure_witness :
    authenticate_user wDigest [wUser] "nobody@x.com" "whatever" = none ∧
    authenticate_user wDigest [wUser] "jane@x.com" "wrongpass" = none ∧
    authenticate_user wDigest [wUser] "jane@x.com" "pw1" = some wUser :=
  ⟨(authenticate_uniform_failure wDigest [wUser] "nobody@x.com" "whatever").1 rfl,
   (authenticate_uniform_failure wDigest [wUser] "jane@x.com" "wrongpass").2.1
     wUser rfl rfl,
   (authenticate_uniform_failure wDigest [wUser] "jane@x.com" "pw1").2.2
     wUser rfl rfl⟩

/-- C5: the code violates the claim at a missing email: verify_email
with a well-signed token for an email no stored user has falls through
and answers with an empty 200 response, not with a NotFound outcome (and
the User model has no verification-flag column for the success path to
persist). -/
theorem verify_email_missing_user_empty_response :
    verify_email ghostToken [] 0 = (VerifyOutcome.emptyResponse, []) := rfl

/-- C6: decoding a well-signed token strictly after its expiry instant
fails with the expired error, and get_current_user turns that into the
credentials rejection rather than accepting the token. -/
theorem token_expired_rejected (tok : Token) (now ex : Int) (db : List User)
    (hkey : tok.key = SECRET_KEY) (hexp : tok.exp = some ex) (hlt : ex < now) :
    jwt_decode tok SECRET_KEY now = Except.error JWTDecodeError.expired ∧
    get_current_user db tok now = Except.error ApiError.credentialsException := by
  have hdec : jwt_decode tok SECRET_KEY now = Except.error JWTDecodeError.expired := by
    simp [jwt_decode, hkey, hexp, hlt]
  exact ⟨hdec, by simp [get_current_user, hdec]⟩

theorem token_expired_rejected_witness :
    jwt_decode expiredToken SECRET_KEY 1 = Except.error JWTDecodeError.expired ∧
    get_current_user [wUser] expiredToken 1 =
      Except.error ApiError.credentialsException :=
  token_expired_rejected expiredToken 1 0 [wUser] rfl rfl (by decide)

/-- C7 counterexample: the claim's literal-substring characterization of
search fails on the code.  The filter value a_c, whose underscore the
database interprets as a single-character wildcard, selects the contact
named abc, although a_c is not a case-insensitive substring of abc: the
query and the substring filter disagree at this input. -/
theorem search_contacts_substring_counterexample :
    search_contacts [wildcardContact] (some "a_c") none none = [wildcardContact] ∧
    [wildcardContact].filter (fun c =>
      optSubstrMatch (some "a_c") c.first_name && optSubstrMatch none c.last_name &&
        optSubstrMatch none c.email) = [] :=
  ⟨rfl, rfl⟩

/-- C7 (amended): search returns exactly the contacts for which every
supplied filter value matches the corresponding field under
case-insensitive SQL LIKE containment (the value is matched anywhere in
the field, a percent in it matching any run of characters and an
underscore any single character; a value free of these metacharacters
matches as a plain substring), with the filters combined by conjunction
and omitted filters not applied; with no filters it returns the whole
table.  In particular the filter value oh matches the first name John
and the filter value zz matches nothing. -/
theorem search_contacts_like_exact (db : List Contact)
    (name surname email : Option String) :
    (search_contacts db name surname email =
      db.filter (fun c =>
        optLikeMatch name c.first_name && optLikeMatch surname c.last_name &&
          optLikeMatch email c.email)) ∧
    search_contacts [wContact] (some "oh") none none = [wContact] ∧
    search_contacts [wContact] (some "zz") none none = [] := by
  refine ⟨?_, rfl, rfl⟩
  have h1 : ∀ (q : List Contact) (o : Option String),
      (if truthy o then q.filter (fun c => ilike c.first_name (o.getD "")) else q) =
        q.filter (fun c => optLikeMatch o c.first_name) := by
    intro q o
    cases o with
    | none => simp [truthy, optLikeMatch]
    | some v =>
      by_cases hv : v = ""
      · subst hv
        simp [truthy, optLikeMatch, ilike_empty_pat]
      · simp [truthy, optLikeMatch, hv]
  have h2 : ∀ (q : List Contact) (o : Option String),
      (if truthy o then q.filter (fun c => ilike c.last_name (o.getD "")) else q) =
        q.filter (fun c => optLikeMatch o c.last_name) := by
    intro q o
    cases o with
    | none => simp [truthy, optLikeMatch]
    | some v =>
      by_cases hv : v = ""
      · subst hv
        simp [truthy, optLikeMatch, ilike_empty_pat]
      · simp [truthy, optLikeMatch, hv]
  have h3 : ∀ (q : List Contact) (o : Option String),
      (if truthy o then q.filter (fun c => ilike c.email (o.getD "")) else q) =
        q.filter (fun c => optLikeMatch o c.email) := by
    intro q o
    cases o with
    | none => simp [truthy, optLikeMatch]
    | some v =>
      by_cases hv : v = ""
      · subst hv
        simp [truthy, optLikeMatch, ilike_empty_pat]
      · simp [truthy, optLikeMatch, hv]
  show (if truthy email then
          (if truthy surname then
            (if truthy name then db.filter (fun c => ilike c.first_name (name.getD "")) else db).filter
              (fun c => ilike c.last_name (surname.getD ""))
          else (if truthy name then db.filter (fun c => ilike c.first_name (name.getD "")) else db)).filter
            (fun c => ilike c.email (email.getD ""))
        else (if truthy surname then
            (if truthy name then db.filter (fun c => ilike c.first_name (name.getD "")) else db).filter
              (fun c => ilike c.last_name (surname.getD ""))
          else (if truthy name then db.filter (fun c => ilike c.first_name (name.getD "")) else db))) = _
  rw [h1 db name]
  rw [h2 _ surname]
  rw [h3 _ email]
  rw [List.filter_filter, List.filter_filter]
  refine List.filter_congr ?_
  intro c _
  cases optLikeMatch name c.first_name <;> cases optLikeMatch surname c.last_name <;>
    cases optLikeMatch email c.email <;> rfl

/-- C8: registering an email an existing user already has yields the
Conflict failure and leaves the stored table unchanged; otherwise
exactly one new user row is appended, holding the email and the output
of the hashing scheme applied to the password, never the plaintext
itself. -/
theorem create_user_conflict_or_inserts (digest : String → String → String)
    (db : List User) (user : UserCreate) (salt : String) :
    ((∃ x ∈ db, x.email = user.email) →
      create_user digest db user salt = (Except.error ApiError.conflict, db)) ∧
    ((∀ x ∈ db, x.email ≠ user.email) →
      create_user digest db user salt =
        (Except.ok
          { id := db.length + 1
            email := user.email
            hashed_password := get_password_hash digest user.password salt },
         db ++ [{ id := db.length + 1
                  email := user.email
                  hashed_password := get_password_hash digest user.password salt }])) := by
  constructor
  · rintro ⟨x, hx, he⟩
    have hne : db.find? (fun y => y.email == user.email) ≠ none := by
      rw [Ne, List.find?_eq_none]
      push_neg
      exact ⟨x, hx, by simp [he]⟩
    rcases hfind : db.find? (fun y => y.email == user.email) with _ | y
    · exact absurd hfind hne
    · simp [create_user, hfind]
  · intro hall
    have hfind : db.find? (fun y => y.email == user.email) = none := by
      rw [List.find?_eq_none]
      intro x hx
      simp [hall x hx]
    simp [create_user, hfind]

theorem create_user_conflict_or_inserts_witness :
    create_user wDigest [wUser] { email := "jane@x.com", password := "other" } "s2" =
      (Except.error ApiError.conflict, [wUser]) ∧
    create_user wDigest [] { email := "new@x.com", password := "pw2" } "s3" =
      (Except.ok { id := 1, email := "new@x.com",
                   hashed_password := get_password_hash wDigest "pw2" "s3" },
       [{ id := 1, email := "new@x.com",
          hashed_password := get_password_hash wDigest "pw2" "s3" }]) :=
  ⟨(create_user_conflict_or_inserts wDigest [wUser]
      { email := "jane@x.com", password := "other" } "s2").1
      ⟨wUser, by simp, rfl⟩,
   (create_user_conflict_or_inserts wDigest []
      { email := "new@x.com", password := "pw2" } "s3").2 (by simp)⟩

/-- C9: against the spec-modelled salted scheme, a password verifies
against its own hash under any salt; a different password does not
verify (given a per-salt collision-free digest, the spec's negligible
collision caveat); and two hashes of the same password under different
salts are different hash values yet both verify. -/
theorem hash_verify_roundtrip (digest : String → String → String)
    (hinj : ∀ s a b, digest s a = digest s b → a = b)
    (p q s s1 s2 : String) :
    verify_password digest p (get_password_hash digest p s) = true ∧
    (p ≠ q → verify_password digest p (get_password_hash digest q s) = false) ∧
    (s1 ≠ s2 → get_password_hash digest p s1 ≠ get_password_hash digest p s2) ∧
    verify_password digest p (get_password_hash digest p s1) = true ∧
    verify_password digest p (get_password_hash digest p s2) = true := by
  refine ⟨?_, ?_, ?_, ?_, ?_⟩
  · simp [verify_password, get_password_hash]
  · intro hpq
    have hne : digest s p ≠ digest s q := fun he => hpq (hinj s p q he)
    simp [verify_password, get_password_hash, hne]
  · intro hs hcontra
    exact hs (congrArg BcryptHash.salt hcontra)
  · simp [verify_password, get_password_hash]
  · simp [verify_password, get_password_hash]

theorem hash_verify_roundtrip_witness :
    verify_password wDigest "aa" (get_password_hash wDigest "aa" "s") = true ∧
    verify_password wDigest "aa" (get_password_hash wDigest "bb" "s") = false ∧
    get_password_hash wDigest "aa" "s1" ≠ get_password_hash wDigest "aa" "s2" ∧
    verify_password wDigest "aa" (get_password_hash wDigest "aa" "s1") = true ∧
    verify_password wDigest "aa" (get_password_hash wDigest "aa" "s2") = true :=
  have h := hash_verify_roundtrip wDigest (fun _ _ _ hh => hh) "aa" "bb" "s" "s1" "s2"
  ⟨h.1, h.2.1 (by decide), h.2.2.1 (by decide), h.2.2.2.1, h.2.2.2.2⟩

/-- C10: an empty-string value for any search filter behaves exactly as
if that filter were omitted, and search with all three filters empty
returns the whole table. -/
theorem search_empty_filter_as_omitted (db : List Contact)
    (name surname email : Option String) :
    search_contacts db (some "") surname email =
      search_contacts db none surname email ∧
    search_contacts db name (some "") email =
      search_contacts db name none email ∧
    search_contacts db name surname (some "") =
      search_contacts db name surname none ∧
    search_contacts db (some "") (some "") (some "") = db :=
  ⟨rfl, rfl, rfl, rfl⟩
